import Mathlib

/-!
# Verification of the Astronomy Explorer client

Shallow embedding of the form validator, coordinate parser, request
builder, HTTP-client error normalization, response validator and
time-boxed cache of the Stars-for-Starlikers repository
(`src/utils.js`, `src/main.js`, `src/app.js` and the unnamed api
module), together with proofs of the specified properties.
-/

namespace Astro

/-! ## JSON values

A generic JSON value type used for request/response bodies and error
details.  Property access and JavaScript truthiness are modelled
explicitly; `none : Option Json` stands for `undefined`. -/

inductive Json where
  | null : Json
  | bool (b : Bool) : Json
  | num (q : ℚ) : Json
  | str (s : String) : Json
  | arr (elems : List Json) : Json
  | obj (fields : List (String × Json)) : Json

/-- JavaScript truthiness of a defined value: `null`, `false`, `0` and
the empty string are falsy; objects and arrays are truthy. -/
def jsTruthy : Json → Bool
  | .null => false
  | .bool b => b
  | .num q => q != 0
  | .str s => !s.data.isEmpty
  | .arr _ => true
  | .obj _ => true

/-- A value thrown by the JavaScript code: an `Error` with its
message, or the `TypeError` raised by property access on `null` or
`undefined` (its engine-specific message is not modelled). -/
inductive Thrown where
  | error (message : String) : Thrown
  | typeError : Thrown

/-- Property access `v.f` where `v` itself may be `undefined`: throws
`TypeError` on a `null` or `undefined` base, yields the field of an
object (or `undefined` when missing), and yields `undefined` on any
other, boxed-primitive, base. -/
def jsGet : Option Json → String → Except Thrown (Option Json)
  | none, _ => .error .typeError
  | some .null, _ => .error .typeError
  | some (.obj fields), f => .ok (fields.lookup f)
  | some _, _ => .ok none

/-- Truthiness of a possibly-`undefined` value. -/
def jsTruthyOpt : Option Json → Bool
  | none => false
  | some j => jsTruthy j

/-! ## Coordinate parsing (`src/utils.js` lines 71–84)

The builtin `parseFloat` is modelled on character lists by its decimal
fragment: skip leading whitespace, optional sign, then the longest
run of digits with an optional fractional part (exponent and
`Infinity` forms never arise from this application's inputs).  `none`
stands for `NaN`. -/

/-- Numeric value of a digit list read left to right. -/
def digitsVal (ds : List Char) : ℕ :=
  ds.foldl (fun acc c => 10 * acc + (c.toNat - '0'.toNat)) 0

/-- Sign, integer digits and fractional digits of the longest decimal
prefix of the character list; `none` when no digits are consumed. -/
def parseDecParts (cs : List Char) : Option (Bool × List Char × List Char) :=
  let cs1 := cs.dropWhile (fun c => c.isWhitespace)
  let signed : Bool × List Char :=
    match cs1 with
    | '-' :: rest => (true, rest)
    | '+' :: rest => (false, rest)
    | _ => (false, cs1)
  let ints := signed.2.takeWhile (fun c => c.isDigit)
  let rest := signed.2.dropWhile (fun c => c.isDigit)
  match rest with
  | '.' :: rest2 =>
    let fracs := rest2.takeWhile (fun c => c.isDigit)
    if ints.isEmpty && fracs.isEmpty then none else some (signed.1, ints, fracs)
  | _ => if ints.isEmpty then none else some (signed.1, ints, [])

/-- Rational value denoted by a parsed sign/integer/fraction triple. -/
def partsVal (neg : Bool) (ints fracs : List Char) : ℚ :=
  let mag : ℚ :=
    if fracs.isEmpty then (digitsVal ints : ℚ)
    else (digitsVal ints : ℚ) + (digitsVal fracs : ℚ) / (10 : ℚ) ^ fracs.length
  if neg then -mag else mag

/-- Model of the JavaScript builtin `parseFloat` on a character list. -/
def jsParseFloat (cs : List Char) : Option ℚ :=
  match parseDecParts cs with
  | none => none
  | some (neg, ints, fracs) => some (partsVal neg ints fracs)

/-- Model of `String.prototype.split(",")` on a character list. -/
def splitComma : List Char → List (List Char)
  | [] => [[]]
  | c :: rest =>
    if c = ',' then [] :: splitComma rest
    else
      match splitComma rest with
      | h :: t => (c :: h) :: t
      | [] => [[c]]

/-- Model of `String.prototype.trim()` on a character list. -/
def trimChars (cs : List Char) : List Char :=
  ((cs.dropWhile (fun c => c.isWhitespace)).reverse.dropWhile
    (fun c => c.isWhitespace)).reverse

/-- Parsed latitude/longitude pair. -/
structure Coordinates where
  lat : ℚ
  lng : ℚ
  deriving DecidableEq, Repr

/-- Split-and-parse stage of `parseCoordinates`: falsy-string guard,
split on the comma, exactly two parts, `parseFloat` of each trimmed
part with `NaN` rejection — everything before the range check. -/
def rawParseCoordinates (coordString : String) : Option (ℚ × ℚ) :=
  if coordString.data.isEmpty then none
  else
    match splitComma coordString.data with
    | [p0, p1] =>
      match jsParseFloat (trimChars p0), jsParseFloat (trimChars p1) with
      | some lat, some lng => some (lat, lng)
      | _, _ => none
    | _ => none

/-- Function `parseCoordinates` from `src/utils.js`: the parse stage
above followed by the range check `lat ∈ [-90,90]`,
`lng ∈ [-180,180]`; `null` on any failure. -/
def parseCoordinates (coordString : String) : Option Coordinates :=
  match rawParseCoordinates coordString with
  | none => none
  | some (lat, lng) =>
    if lat < -90 ∨ lat > 90 ∨ lng < -180 ∨ lng > 180 then none
    else some ⟨lat, lng⟩

/-! ## Date validation (`src/utils.js` lines 58–64)

Regex shape test `^\d{4}-\d{2}-\d{2}$` followed by the `new Date`
validity check, which for this shape accepts exactly the calendar
dates of the ES date-time string format. -/

/-- Leap-year rule of the proleptic Gregorian calendar. -/
def isLeapYear (y : ℕ) : Bool :=
  (y % 4 = 0 && y % 100 ≠ 0) || y % 400 = 0

/-- Number of days in a month. -/
def daysInMonth (y m : ℕ) : ℕ :=
  if m = 2 then (if isLeapYear y then 29 else 28)
  else if m = 4 ∨ m = 6 ∨ m = 9 ∨ m = 11 then 30
  else 31

/-- Function `isValidDate` from `src/utils.js`. -/
def isValidDate (dateString : String) : Bool :=
  match dateString.data with
  | [y1, y2, y3, y4, c1, m1, m2, c2, d1, d2] =>
    if c1 = '-' && c2 = '-' && [y1, y2, y3, y4, m1, m2, d1, d2].all Char.isDigit then
      let y := digitsVal [y1, y2, y3, y4]
      let m := digitsVal [m1, m2]
      let d := digitsVal [d1, d2]
      1 ≤ m && m ≤ 12 && 1 ≤ d && d ≤ daysInMonth y m
    else false
  | _ => false

/-! ## Form validation (`src/main.js` lines 281–324) -/

/-- Raw form fields as read by `getFormData`; `none` models an
`undefined` DOM read. -/
structure FormData where
  constellation : Option String
  style : Option String
  location : Option String
  date : Option String
  deriving DecidableEq, Repr

/-- JavaScript falsiness of a possibly-missing string field. -/
def falsy : Option String → Bool
  | none => true
  | some s => s.data.isEmpty

/-- Result shape `{valid, message}` of `validateFormData`. -/
inductive ValidationResult where
  | valid : ValidationResult
  | invalid (message : String) : ValidationResult
  deriving DecidableEq, Repr

/-- Method `validateFormData` of `AstronomyExplorer` (`src/main.js`),
identical in the unnamed `ConstellationApp` variant. -/
def validateFormData (fd : FormData) : ValidationResult :=
  if falsy fd.constellation then
    .invalid "Por favor, selecione uma constelação."
  else if falsy fd.style then
    .invalid "Por favor, selecione um estilo de visualização."
  else if falsy fd.location then
    .invalid "Por favor, selecione uma localização."
  else if falsy fd.date then
    .invalid "Por favor, selecione uma data."
  else if ! isValidDate (fd.date.getD "") then
    .invalid "Formato de data inválido. Use YYYY-MM-DD."
  else
    match parseCoordinates (fd.location.getD "") with
    | none => .invalid "Coordenadas de localização inválidas."
    | some _ => .valid

/-- The seven checks of the specified validation priority order. -/
inductive FormField where
  | subject : FormField
  | style : FormField
  | location : FormField
  | datePresence : FormField
  | dateFormat : FormField
  | coordParse : FormField
  | coordRange : FormField
  deriving DecidableEq, Repr

/-- Modelled from the spec: the first missing/invalid field in the
fixed priority order subject code → style code → location → date →
date format → coordinate parse → coordinate range. -/
def firstInvalidField (fd : FormData) : Option FormField :=
  if falsy fd.constellation then some .subject
  else if falsy fd.style then some .style
  else if falsy fd.location then some .location
  else if falsy fd.date then some .datePresence
  else if ! isValidDate (fd.date.getD "") then some .dateFormat
  else
    match rawParseCoordinates (fd.location.getD "") with
    | none => some .coordParse
    | some (lat, lng) =>
      if lat < -90 ∨ lat > 90 ∨ lng < -180 ∨ lng > 180 then some .coordRange
      else none

/-- Validation message the source emits for each failing check; the
coordinate-parse and coordinate-range checks share one message. -/
def fieldMessage : FormField → String
  | .subject => "Por favor, selecione uma constelação."
  | .style => "Por favor, selecione um estilo de visualização."
  | .location => "Por favor, selecione uma localização."
  | .datePresence => "Por favor, selecione uma data."
  | .dateFormat => "Formato de data inválido. Use YYYY-MM-DD."
  | .coordParse => "Coordenadas de localização inválidas."
  | .coordRange => "Coordenadas de localização inválidas."

/-! ## Submit control flow (`src/main.js` lines 234–275) -/

/-- Outcome of the `handleSubmit` decision chain: credential error,
inline validation error, or the call into `generateStarChart`. -/
inductive SubmitAction where
  | showCredentialsError : SubmitAction
  | showValidationError (message : String) : SubmitAction
  | callGenerateStarChart (fd : FormData) : SubmitAction
  deriving DecidableEq, Repr

/-- Control-flow decision of `AstronomyExplorer.handleSubmit`:
credential guard, then validation, then the star-chart call. -/
def handleSubmit (hasCredentials : Bool) (fd : FormData) : SubmitAction :=
  if ! hasCredentials then .showCredentialsError
  else
    match validateFormData fd with
    | .invalid msg => .showValidationError msg
    | .valid => .callGenerateStarChart fd

/-! ## HTTP client error normalization (unnamed api module lines 51–97,
duplicated in `src/app.js` lines 674–720)

A `fetch` outcome is either a received HTTP response — whose body may
fail JSON decoding — or a transport-level failure with no response at
all.  `request` is modelled after credentials are set (the
`getAuthHeader` guard throws before any fetch when they are not). -/

/-- Observable outcome of the underlying `fetch` call.  In
`response`, the body field models `response.json()`: `Except.ok` a
decoded value, `Except.error` a decode rejection with its message. -/
inductive FetchOutcome where
  | response (status : ℕ) (statusText : String) (body : Except String Json) : FetchOutcome
  | transportError (errMessage : String) : FetchOutcome

/-- Error shape `APIError(message, status, statusText, details)`. -/
structure APIError where
  message : String
  status : ℕ
  statusText : String
  details : Json

/-- Method `APIError.getUserMessage`: the status-code switch mapping
to localized user-facing messages. -/
def APIError.getUserMessage (e : APIError) : String :=
  if e.status = 401 then
    "Credenciais da API inválidas. Verifique sua Application ID e Secret."
  else if e.status = 403 then
    "Acesso negado. Verifique suas permissões da API."
  else if e.status = 429 then
    "Limite de requisições excedido. Tente novamente em alguns minutos."
  else if e.status = 422 then
    "Dados inválidos enviados para a API. Verifique os parâmetros."
  else if e.status = 500 ∨ e.status = 502 ∨ e.status = 503 ∨ e.status = 504 then
    "Erro no servidor da API. Tente novamente mais tarde."
  else if e.status = 0 then
    "Erro de conexão. Verifique sua internet e tente novamente."
  else if e.message.data.isEmpty then "Erro desconhecido na API."
  else e.message

/-- Method `AstronomyAPI.request`: a non-2xx status raises an
`APIError` carrying the status and the decoded error body (`{}` when
undecodable); a 2xx status returns the decoded body; every other
throw inside the `try` — a transport failure, or the `SyntaxError` of
a failed 2xx body decode — is normalized in the `catch` block to
`APIError(status 0, "Network Error", {originalError})`. -/
def request (outcome : FetchOutcome) : Except APIError Json :=
  match outcome with
  | .transportError m =>
    .error ⟨"Network error or API unavailable", 0, "Network Error",
      .obj [("originalError", .str m)]⟩
  | .response status statusText body =>
    if 200 ≤ status ∧ status ≤ 299 then
      match body with
      | .ok j => .ok j
      | .error m =>
        .error ⟨"Network error or API unavailable", 0, "Network Error",
          .obj [("originalError", .str m)]⟩
    else
      .error ⟨"API Error: " ++ Nat.repr status ++ " - " ++ statusText,
        status, statusText,
        match body with
        | .ok j => j
        | .error _ => .obj []⟩

/-! ## Star-chart request building and response validation (unnamed
api module lines 104–153, duplicated in `src/app.js` lines 727–776) -/

/-- Observer block of the request payload. -/
structure Observer where
  latitude : ℚ
  longitude : ℚ
  date : String
  deriving DecidableEq, Repr

/-- View parameter block of the star-chart payload. -/
structure ViewParameters where
  constellation : String
  deriving DecidableEq, Repr

/-- View block of the star-chart payload. -/
structure View where
  type : String
  parameters : ViewParameters
  deriving DecidableEq, Repr

/-- Star-chart request payload `requestData`. -/
structure StarChartRequest where
  style : String
  observer : Observer
  view : View
  deriving DecidableEq, Repr

/-- Parameters destructured at the head of
`AstronomyAPI.generateStarChart`; `none` models `undefined`, and the
`style` destructuring default fills in `"default"`. -/
structure StarChartParams where
  constellation : Option String
  style : Option String
  latitude : Option ℚ
  longitude : Option ℚ
  date : Option String
  deriving DecidableEq, Repr

/-- Guard-and-build stage of `AstronomyAPI.generateStarChart`: the
three required-parameter throws in source order, then the
`requestData` literal.  `parseFloat` applied to an already numeric
latitude/longitude is the identity. -/
def buildStarChartRequest (p : StarChartParams) : Except String StarChartRequest :=
  let style := p.style.getD "default"
  if falsy p.constellation then .error "Constellation is required"
  else
    match p.latitude, p.longitude with
    | some lat, some lng =>
      if falsy p.date then .error "Date is required"
      else
        .ok { style := style
            , observer := { latitude := lat, longitude := lng, date := p.date.getD "" }
            , view := { type := "constellation"
                      , parameters := { constellation := p.constellation.getD "" } } }
    | _, _ => .error "Latitude and longitude are required"

/-- Response check of `AstronomyAPI.generateStarChart`, evaluating
`!response.data || !response.data.imageUrl` with JavaScript
short-circuiting: the access `response.data` throws `TypeError` on a
`null` body, a falsy check result throws the invalid-response
`Error`, and otherwise the response is returned.  The second operand
re-reads `response.data`, which at that point is truthy, hence
defined and non-null, so only its result is consulted. -/
def validateStarChartResponse (response : Json) : Except Thrown Json :=
  match jsGet (some response) "data" with
  | .error t => .error t
  | .ok dataField =>
    if ! jsTruthyOpt dataField then
      .error (.error "Invalid API response: missing image URL")
    else
      match jsGet dataField "imageUrl" with
      | .error t => .error t
      | .ok img =>
        if ! jsTruthyOpt img then
          .error (.error "Invalid API response: missing image URL")
        else .ok response

/-- Failure of `generateStarChart`: a rethrown `APIError` from
`request`, or a thrown value — a plain `Error` from a guard or the
response check, or the `TypeError` of a null-body property access. -/
inductive ChartError where
  | apiError (e : APIError) : ChartError
  | thrown (t : Thrown) : ChartError

/-- Method `AstronomyAPI.generateStarChart` end to end: guards and
payload, the POST via `request`, then the image-URL response check. -/
def generateStarChart (p : StarChartParams) (outcome : FetchOutcome) :
    Except ChartError Json :=
  match buildStarChartRequest p with
  | .error m => .error (.thrown (.error m))
  | .ok _ =>
    match request outcome with
    | .error e => .error (.apiError e)
    | .ok body =>
      match validateStarChartResponse body with
      | .error t => .error (.thrown t)
      | .ok r => .ok r

/-! ## Moon-phase path (unnamed api module lines 160–190) -/

/-- Style block of the moon-phase payload. -/
structure MoonStyle where
  moonStyle : String
  backgroundStyle : String
  backgroundColor : String
  headingColor : String
  textColor : String
  deriving DecidableEq, Repr

/-- Moon-phase request payload `requestData`. -/
structure MoonPhaseRequest where
  format : String
  style : MoonStyle
  observer : Observer
  viewType : String
  deriving DecidableEq, Repr

/-- Parameters destructured by `AstronomyAPI.getMoonPhase`. -/
structure MoonPhaseParams where
  latitude : ℚ
  longitude : ℚ
  date : String
  deriving DecidableEq, Repr

/-- Payload built by `AstronomyAPI.getMoonPhase`; all style fields
are fixed literals. -/
def buildMoonPhaseRequest (p : MoonPhaseParams) : MoonPhaseRequest :=
  { format := "png"
  , style := { moonStyle := "default", backgroundStyle := "stars"
             , backgroundColor := "red", headingColor := "white"
             , textColor := "white" }
  , observer := { latitude := p.latitude, longitude := p.longitude, date := p.date }
  , viewType := "portrait-simple" }

/-- Method `AstronomyAPI.getMoonPhase`: builds its payload and
returns the `request` result directly, with no response check. -/
def getMoonPhase (p : MoonPhaseParams) (outcome : FetchOutcome) :
    Except APIError Json :=
  let _payload := buildMoonPhaseRequest p
  request outcome

/-! ## Time-boxed cache (unnamed api module lines 274–337)

The `Map` is modelled as an association list with unique keys kept by
construction; `Date.now()` readings are passed explicitly. -/

/-- Entry `{data, timestamp}` stored by `APICache.set`. -/
structure CacheEntry where
  data : Json
  timestamp : ℕ

/-- Cache state: the map plus the configured `maxAge`. -/
structure APICache where
  cache : List (String × CacheEntry)
  maxAge : ℕ

/-- Lookup of `Map.prototype.get`. -/
def lookupKey : List (String × CacheEntry) → String → Option CacheEntry
  | [], _ => none
  | (k0, v) :: rest, k => if k0 = k then some v else lookupKey rest k

/-- Update of `Map.prototype.set`: overwrite the entry of an existing
key, otherwise append. -/
def setKey : List (String × CacheEntry) → String → CacheEntry → List (String × CacheEntry)
  | [], k, v => [(k, v)]
  | (k0, v0) :: rest, k, v =>
    if k0 = k then (k, v) :: rest else (k0, v0) :: setKey rest k v

/-- Removal of `Map.prototype.delete`. -/
def eraseKey : List (String × CacheEntry) → String → List (String × CacheEntry)
  | [], _ => []
  | (k0, v0) :: rest, k =>
    if k0 = k then eraseKey rest k else (k0, v0) :: eraseKey rest k

/-- Method `APICache.get` at time `now`: a hit older than `maxAge` is
deleted and reported as `null`; the updated cache is returned
alongside the value. -/
def APICache.get (c : APICache) (key : String) (now : ℕ) : Option Json × APICache :=
  match lookupKey c.cache key with
  | none => (none, c)
  | some e =>
    if now - e.timestamp > c.maxAge then
      (none, { c with cache := eraseKey c.cache key })
    else (some e.data, c)

/-- Method `APICache.set` at time `now`. -/
def APICache.set (c : APICache) (key : String) (data : Json) (now : ℕ) : APICache :=
  { c with cache := setKey c.cache key ⟨data, now⟩ }

/-- Method `APICache.clearExpired` at time `now`: full sweep of
entries older than `maxAge`. -/
def APICache.clearExpired (c : APICache) (now : ℕ) : APICache :=
  { c with cache := c.cache.filter (fun kv => ! decide (now - kv.2.timestamp > c.maxAge)) }

/-! ## Supporting lemmas -/

/-- Property access on a truthy base never throws. -/
theorem jsGet_ok_of_truthy (d : Option Json) (f : String)
    (h : jsTruthyOpt d = true) : ∃ v, jsGet d f = Except.ok v := by
  match d with
  | none => simp [jsTruthyOpt] at h
  | some .null => simp [jsTruthyOpt, jsTruthy] at h
  | some (.bool b) => exact ⟨none, rfl⟩
  | some (.num q) => exact ⟨none, rfl⟩
  | some (.str s) => exact ⟨none, rfl⟩
  | some (.arr xs) => exact ⟨none, rfl⟩
  | some (.obj fields) => exact ⟨fields.lookup f, rfl⟩

/-- Property access on a defined base throws only when the base is
`null`. -/
theorem jsGet_some_error (body : Json) (f : String) (t : Thrown)
    (h : jsGet (some body) f = Except.error t) : body = Json.null := by
  cases body with
  | null => rfl
  | bool b => simp [jsGet] at h
  | num q => simp [jsGet] at h
  | str s => simp [jsGet] at h
  | arr xs => simp [jsGet] at h
  | obj fields => simp [jsGet] at h

/-- Looking up a key right after setting it yields the new entry. -/
theorem lookupKey_setKey (l : List (String × CacheEntry)) (k : String) (e : CacheEntry) :
    lookupKey (setKey l k e) k = some e := by
  induction l with
  | nil => simp [setKey, lookupKey]
  | cons kv rest ih =>
    obtain ⟨k0, v0⟩ := kv
    by_cases h : k0 = k
    · simp [setKey, lookupKey, h]
    · simp [setKey, lookupKey, h, ih]

/-- Looking up a key right after deleting it yields nothing. -/
theorem lookupKey_eraseKey (l : List (String × CacheEntry)) (k : String) :
    lookupKey (eraseKey l k) k = none := by
  induction l with
  | nil => rfl
  | cons kv rest ih =>
    obtain ⟨k0, v0⟩ := kv
    by_cases h : k0 = k
    · simp [eraseKey, h, ih]
    · simp [eraseKey, lookupKey, h, ih]

/-! ## Claim theorems -/

/-- C1: `validateFormData` checks its fields in the fixed priority
order subject code → style code → location → date presence → date
format → coordinate parse → coordinate range, returns the failure
message of the first failing check, and reports validity exactly when
every check passes. -/
theorem validateFormData_first_invalid (fd : FormData) :
    validateFormData fd =
      match firstInvalidField fd with
      | none => ValidationResult.valid
      | some f => ValidationResult.invalid (fieldMessage f) := by
  by_cases h1 : falsy fd.constellation = true
  · simp [validateFormData, firstInvalidField, h1, fieldMessage]
  by_cases h2 : falsy fd.style = true
  · simp [validateFormData, firstInvalidField, h1, h2, fieldMessage]
  by_cases h3 : falsy fd.location = true
  · simp [validateFormData, firstInvalidField, h1, h2, h3, fieldMessage]
  by_cases h4 : falsy fd.date = true
  · simp [validateFormData, firstInvalidField, h1, h2, h3, h4, fieldMessage]
  by_cases h5 : (! isValidDate (fd.date.getD "")) = true
  · simp [validateFormData, firstInvalidField, h1, h2, h3, h4, h5, fieldMessage]
  · cases hr : rawParseCoordinates (fd.location.getD "") with
    | none =>
      simp [validateFormData, firstInvalidField, parseCoordinates,
        h1, h2, h3, h4, h5, hr, fieldMessage]
    | some p =>
      obtain ⟨lat, lng⟩ := p
      by_cases h6 : lat < -90 ∨ lat > 90 ∨ lng < -180 ∨ lng > 180
      · simp [validateFormData, firstInvalidField, parseCoordinates,
          h1, h2, h3, h4, h5, hr, h6, fieldMessage]
      · simp [validateFormData, firstInvalidField, parseCoordinates,
          h1, h2, h3, h4, h5, hr, h6, fieldMessage]

/-- C2: when the location string parses to a latitude outside
[-90,90] or a longitude outside [-180,180], `parseCoordinates`
returns `null`, validation never reports validity, and `handleSubmit`
never reaches the `generateStarChart` call. -/
theorem coord_range_blocks_submit (fd : FormData) (loc : String) (lat lng : ℚ)
    (creds : Bool)
    (hloc : fd.location = some loc)
    (hraw : rawParseCoordinates loc = some (lat, lng))
    (hout : lat < -90 ∨ lat > 90 ∨ lng < -180 ∨ lng > 180) :
    parseCoordinates loc = none ∧
    validateFormData fd ≠ ValidationResult.valid ∧
    (falsy fd.constellation = false → falsy fd.style = false →
      falsy fd.date = false → isValidDate (fd.date.getD "") = true →
      validateFormData fd =
        ValidationResult.invalid "Coordenadas de localização inválidas.") ∧
    handleSubmit creds fd ≠ SubmitAction.callGenerateStarChart fd := by
  have hpc : parseCoordinates loc = none := by
    unfold parseCoordinates
    rw [hraw]
    exact if_pos hout
  have hfl : falsy fd.location = false := by
    rw [hloc]
    unfold rawParseCoordinates at hraw
    by_cases he : loc.data.isEmpty = true
    · rw [if_pos he] at hraw
      exact absurd hraw (by simp)
    · simpa [falsy] using he
  have hval : validateFormData fd ≠ ValidationResult.valid := by
    by_cases h1 : falsy fd.constellation = true
    · simp [validateFormData, h1]
    by_cases h2 : falsy fd.style = true
    · simp [validateFormData, h1, h2]
    by_cases h3 : falsy fd.location = true
    · simp [validateFormData, h1, h2, h3]
    by_cases h4 : falsy fd.date = true
    · simp [validateFormData, h1, h2, h3, h4]
    by_cases h5 : (! isValidDate (fd.date.getD "")) = true
    · simp [validateFormData, h1, h2, h3, h4, h5]
    · simp only [validateFormData, hloc, Option.getD_some, hpc]
      (repeat' split) <;> simp
  have hmsg : falsy fd.constellation = false → falsy fd.style = false →
      falsy fd.date = false → isValidDate (fd.date.getD "") = true →
      validateFormData fd =
        ValidationResult.invalid "Coordenadas de localização inválidas." := by
    intro f1 f2 f4 f5
    have hfl' : falsy (some loc) = false := hloc ▸ hfl
    simp [validateFormData, f1, f2, hfl, hfl', f4, f5, hloc, hpc]
  refine ⟨hpc, hval, hmsg, ?_⟩
  cases creds with
  | false => simp [handleSubmit]
  | true =>
    cases hvv : validateFormData fd with
    | valid => exact absurd hvv hval
    | invalid m => simp [handleSubmit, hvv]

/-- C2 witness: the location "91,0" parses to latitude 91, which is
reported as invalid coordinates and never reaches the network call. -/
theorem coord_range_blocks_submit_witness :
    parseCoordinates "91,0" = none ∧
    validateFormData ⟨some "ori", some "default", some "91,0", some "2024-06-01"⟩ =
      ValidationResult.invalid "Coordenadas de localização inválidas." ∧
    handleSubmit true ⟨some "ori", some "default", some "91,0", some "2024-06-01"⟩ ≠
      SubmitAction.callGenerateStarChart
        ⟨some "ori", some "default", some "91,0", some "2024-06-01"⟩ :=
  ⟨(coord_range_blocks_submit
      ⟨some "ori", some "default", some "91,0", some "2024-06-01"⟩
      "91,0" 91 0 true rfl (by decide) (by decide)).1,
   (coord_range_blocks_submit
      ⟨some "ori", some "default", some "91,0", some "2024-06-01"⟩
      "91,0" 91 0 true rfl (by decide) (by decide)).2.2.1
      (by decide) (by decide) (by decide) (by decide),
   (coord_range_blocks_submit
      ⟨some "ori", some "default", some "91,0", some "2024-06-01"⟩
      "91,0" 91 0 true rfl (by decide) (by decide)).2.2.2⟩

/-- C3: for the example scenario — constellation "ori", style
"default", latitude 33.775867, longitude -84.39733, date
"2024-06-01" — the location string parses to exactly those numbers,
and the builder inside `generateStarChart` emits exactly the
specified payload, passing the date string through unmodified. -/
theorem starChart_payload_example :
    parseCoordinates "33.775867,-84.39733" =
      some { lat := 33.775867, lng := -84.39733 } ∧
    buildStarChartRequest
        { constellation := some "ori", style := some "default"
        , latitude := some 33.775867, longitude := some (-84.39733)
        , date := some "2024-06-01" } =
      Except.ok
        { style := "default"
        , observer := { latitude := 33.775867, longitude := -84.39733
                      , date := "2024-06-01" }
        , view := { type := "constellation"
                  , parameters := { constellation := "ori" } } } := by
  constructor
  · have e1 : rawParseCoordinates "33.775867,-84.39733" =
        some (partsVal false ['3', '3'] ['7', '7', '5', '8', '6', '7'],
              partsVal true ['8', '4'] ['3', '9', '7', '3', '3']) := rfl
    have d1 : digitsVal ['3', '3'] = 33 := by decide
    have d2 : digitsVal ['7', '7', '5', '8', '6', '7'] = 775867 := by decide
    have d3 : digitsVal ['8', '4'] = 84 := by decide
    have d4 : digitsVal ['3', '9', '7', '3', '3'] = 39733 := by decide
    have v1 : partsVal false ['3', '3'] ['7', '7', '5', '8', '6', '7'] =
        (33.775867 : ℚ) := by
      simp only [partsVal, List.isEmpty_cons, Bool.false_eq_true, if_false,
        d1, d2, List.length_cons, List.length_nil]
      norm_num
    have v2 : partsVal true ['8', '4'] ['3', '9', '7', '3', '3'] =
        (-84.39733 : ℚ) := by
      simp only [partsVal, List.isEmpty_cons, Bool.false_eq_true, if_false,
        d3, d4, List.length_cons, List.length_nil, if_true]
      norm_num
    have hrange : ¬ ((33.775867 : ℚ) < -90 ∨ (33.775867 : ℚ) > 90 ∨
        (-84.39733 : ℚ) < -180 ∨ (-84.39733 : ℚ) > 180) := by norm_num
    unfold parseCoordinates
    rw [e1, v1, v2]
    show (if (33.775867 : ℚ) < -90 ∨ (33.775867 : ℚ) > 90 ∨
            (-84.39733 : ℚ) < -180 ∨ (-84.39733 : ℚ) > 180
          then (none : Option Coordinates)
          else some ({ lat := 33.775867, lng := -84.39733 } : Coordinates)) =
        some ({ lat := 33.775867, lng := -84.39733 } : Coordinates)
    rw [if_neg hrange]
  · rfl

/-- C4: every HTTP response with status 401 makes `request` fail with
an `APIError` whose status is 401 and whose user message is the
credential message, whether or not the error body decodes. -/
theorem request_401_invalid_credentials (statusText : String)
    (body : Except String Json) :
    ∃ e : APIError, request (.response 401 statusText body) = Except.error e ∧
      e.status = 401 ∧
      e.getUserMessage =
        "Credenciais da API inválidas. Verifique sua Application ID e Secret." := by
  cases body with
  | ok j =>
    refine ⟨⟨"API Error: " ++ Nat.repr 401 ++ " - " ++ statusText,
      401, statusText, j⟩, ?_, rfl, rfl⟩
    simp only [request]
    rw [if_neg (by decide : ¬ (200 ≤ 401 ∧ 401 ≤ 299))]
  | error m =>
    refine ⟨⟨"API Error: " ++ Nat.repr 401 ++ " - " ++ statusText,
      401, statusText, .obj []⟩, ?_, rfl, rfl⟩
    simp only [request]
    rw [if_neg (by decide : ¬ (200 ≤ 401 ∧ 401 ≤ 299))]

/-- C5: every transport-level failure of the underlying fetch makes
`request` fail with an `APIError` of status 0, statusText "Network
Error", and details `{originalError: message}`. -/
theorem request_transport_failure (m : String) :
    request (.transportError m) =
      Except.error ⟨"Network error or API unavailable", 0, "Network Error",
        Json.obj [("originalError", Json.str m)]⟩ := rfl

/-- C9: a 2xx response whose body fails to decode as JSON is reported
with the transport-failure shape — status 0, statusText "Network
Error", `{originalError}` — not with a decode-specific error or the
received HTTP status. -/
theorem request_2xx_decode_failure (status : ℕ) (statusText m : String)
    (h1 : 200 ≤ status) (h2 : status ≤ 299) :
    request (.response status statusText (.error m)) =
      Except.error ⟨"Network error or API unavailable", 0, "Network Error",
        Json.obj [("originalError", Json.str m)]⟩ := by
  simp only [request]
  rw [if_pos ⟨h1, h2⟩]

/-- C9 witness: a decode failure on a status-200 response. -/
theorem request_2xx_decode_failure_witness :
    request (.response 200 "OK" (.error "Unexpected end of JSON input")) =
      Except.error ⟨"Network error or API unavailable", 0, "Network Error",
        Json.obj [("originalError", Json.str "Unexpected end of JSON input")]⟩ :=
  request_2xx_decode_failure 200 "OK" "Unexpected end of JSON input"
    (by decide) (by decide)

/-- C6 counterexample: a 200 response whose decoded body is JSON
`null` lacks any image URL field, yet the star-chart call fails with
the `TypeError` thrown by `response.data`, not with the
invalid-response error the claim states. -/
theorem starChart_null_body_counterexample :
    generateStarChart
        { constellation := some "ori", style := some "default"
        , latitude := some 0, longitude := some 0, date := some "2024-06-01" }
        (.response 200 "OK" (.ok Json.null)) =
      Except.error (ChartError.thrown Thrown.typeError) ∧
    ¬ generateStarChart
        { constellation := some "ori", style := some "default"
        , latitude := some 0, longitude := some 0, date := some "2024-06-01" }
        (.response 200 "OK" (.ok Json.null)) =
      Except.error (ChartError.thrown
        (Thrown.error "Invalid API response: missing image URL")) := by
  have h1 : generateStarChart
      { constellation := some "ori", style := some "default"
      , latitude := some 0, longitude := some 0, date := some "2024-06-01" }
      (.response 200 "OK" (.ok Json.null)) =
      Except.error (ChartError.thrown Thrown.typeError) := rfl
  refine ⟨h1, fun h => ?_⟩
  rw [h1] at h
  simp at h

/-- C6 amended: once the guards pass and a 2xx response decodes, the
star-chart call succeeds with the body exactly when
`response.data.imageUrl` is reachable, present and truthy; a `null`
body fails with the `TypeError` of its property access, and every
other body lacking a truthy image URL fails with the
invalid-response error — never reporting success. -/
theorem starChart_response_validation (p : StarChartParams)
    (req : StarChartRequest) (hbuild : buildStarChartRequest p = Except.ok req)
    (status : ℕ) (statusText : String) (body : Json)
    (h1 : 200 ≤ status) (h2 : status ≤ 299) :
    (generateStarChart p (.response status statusText (.ok body)) =
        Except.ok body ↔
      ∃ d img, jsGet (some body) "data" = Except.ok d ∧ jsTruthyOpt d = true ∧
        jsGet d "imageUrl" = Except.ok img ∧ jsTruthyOpt img = true) ∧
    (body = Json.null →
      generateStarChart p (.response status statusText (.ok body)) =
        Except.error (ChartError.thrown Thrown.typeError)) ∧
    (body ≠ Json.null →
      ¬ (∃ d img, jsGet (some body) "data" = Except.ok d ∧ jsTruthyOpt d = true ∧
          jsGet d "imageUrl" = Except.ok img ∧ jsTruthyOpt img = true) →
      generateStarChart p (.response status statusText (.ok body)) =
        Except.error (ChartError.thrown
          (Thrown.error "Invalid API response: missing image URL"))) := by
  have hreq : request (.response status statusText (.ok body)) = Except.ok body := by
    simp only [request]
    rw [if_pos ⟨h1, h2⟩]
  have hgen : generateStarChart p (.response status statusText (.ok body)) =
      match validateStarChartResponse body with
      | .error t => Except.error (.thrown t)
      | .ok r => Except.ok r := by
    unfold generateStarChart
    rw [hbuild, hreq]
  refine ⟨?_, ?_, ?_⟩
  · cases hd : jsGet (some body) "data" with
    | error t =>
      have hv : validateStarChartResponse body = Except.error t := by
        simp [validateStarChartResponse, hd]
      rw [hgen, hv]
      constructor
      · intro h
        exact absurd h (by simp)
      · rintro ⟨d, img, hd2, htd2, himg2, hti2⟩
        simp at hd2
    | ok d =>
      by_cases htd : jsTruthyOpt d = true
      · obtain ⟨img, himg⟩ := jsGet_ok_of_truthy d "imageUrl" htd
        by_cases hti : jsTruthyOpt img = true
        · have hv : validateStarChartResponse body = Except.ok body := by
            simp [validateStarChartResponse, hd, htd, himg, hti]
          rw [hgen, hv]
          exact ⟨fun _ => ⟨d, img, rfl, htd, himg, hti⟩, fun _ => rfl⟩
        · have hti' : jsTruthyOpt img = false := Bool.eq_false_iff.mpr hti
          have hv : validateStarChartResponse body =
              Except.error (Thrown.error "Invalid API response: missing image URL") := by
            simp [validateStarChartResponse, hd, htd, himg, hti']
          rw [hgen, hv]
          constructor
          · intro h
            exact absurd h (by simp)
          · rintro ⟨d2, img2, hd2, htd2, himg2, hti2⟩
            injection hd2 with hdd
            subst hdd
            rw [himg] at himg2
            injection himg2 with hii
            subst hii
            exact absurd hti2 hti
      · have htd' : jsTruthyOpt d = false := Bool.eq_false_iff.mpr htd
        have hv : validateStarChartResponse body =
            Except.error (Thrown.error "Invalid API response: missing image URL") := by
          simp [validateStarChartResponse, hd, htd']
        rw [hgen, hv]
        constructor
        · intro h
          exact absurd h (by simp)
        · rintro ⟨d2, img2, hd2, htd2, himg2, hti2⟩
          injection hd2 with hdd
          subst hdd
          exact absurd htd2 htd
  · intro hb
    subst hb
    rw [hgen]
    rfl
  · intro hnn hnp
    cases hd : jsGet (some body) "data" with
    | error t => exact absurd (jsGet_some_error body "data" t hd) hnn
    | ok d =>
      by_cases htd : jsTruthyOpt d = true
      · obtain ⟨img, himg⟩ := jsGet_ok_of_truthy d "imageUrl" htd
        by_cases hti : jsTruthyOpt img = true
        · exact absurd ⟨d, img, hd, htd, himg, hti⟩ hnp
        · have hti' : jsTruthyOpt img = false := Bool.eq_false_iff.mpr hti
          have hv : validateStarChartResponse body =
              Except.error (Thrown.error "Invalid API response: missing image URL") := by
            simp [validateStarChartResponse, hd, htd, himg, hti']
          rw [hgen, hv]
      · have htd' : jsTruthyOpt d = false := Bool.eq_false_iff.mpr htd
        have hv : validateStarChartResponse body =
            Except.error (Thrown.error "Invalid API response: missing image URL") := by
          simp [validateStarChartResponse, hd, htd']
        rw [hgen, hv]

/-- C6 witness: a 200 response whose body is the non-null empty
object is rejected by the star-chart path with the invalid-response
error. -/
theorem starChart_response_validation_witness :
    generateStarChart
        { constellation := some "ori", style := some "default"
        , latitude := some 0, longitude := some 0, date := some "2024-06-01" }
        (.response 200 "OK" (.ok (Json.obj []))) =
      Except.error (ChartError.thrown
        (Thrown.error "Invalid API response: missing image URL")) :=
  (starChart_response_validation
    { constellation := some "ori", style := some "default"
    , latitude := some 0, longitude := some 0, date := some "2024-06-01" }
    { style := "default"
    , observer := { latitude := 0, longitude := 0, date := "2024-06-01" }
    , view := { type := "constellation", parameters := { constellation := "ori" } } }
    rfl 200 "OK" (Json.obj []) (by decide) (by decide)).2.2
    (by simp)
    (by
      rintro ⟨d, img, hd, htd, himg, hti⟩
      simp [jsGet] at hd
      subst hd
      simp [jsTruthyOpt] at htd)

/-- C10: `getMoonPhase` applies no response validation — every 2xx
decoded body comes back as success, even one with no image URL field
at all, while the same empty body is rejected on the star-chart
path. -/
theorem moonPhase_no_response_validation (p : MoonPhaseParams)
    (status : ℕ) (statusText : String) (body : Json)
    (h1 : 200 ≤ status) (h2 : status ≤ 299) :
    getMoonPhase p (.response status statusText (.ok body)) = Except.ok body ∧
    validateStarChartResponse (Json.obj []) =
      Except.error (Thrown.error "Invalid API response: missing image URL") := by
  constructor
  · show request (.response status statusText (.ok body)) = Except.ok body
    simp only [request]
    rw [if_pos ⟨h1, h2⟩]
  · rfl

/-- C10 witness: a 200 response with an empty-object body succeeds on
the moon-phase path. -/
theorem moonPhase_no_response_validation_witness :
    getMoonPhase { latitude := 0, longitude := 0, date := "2024-06-01" }
        (.response 200 "OK" (.ok (Json.obj []))) = Except.ok (Json.obj []) ∧
    validateStarChartResponse (Json.obj []) =
      Except.error (Thrown.error "Invalid API response: missing image URL") :=
  moonPhase_no_response_validation
    { latitude := 0, longitude := 0, date := "2024-06-01" }
    200 "OK" (Json.obj []) (by decide) (by decide)

/-- C7: a value stored by `set` is returned by `get` while the
elapsed time is at most `maxAge`; once the elapsed time exceeds
`maxAge`, `get` returns `null` and deletes the entry as part of the
read. -/
theorem cache_roundtrip_expiry (c : APICache) (key : String) (v : Json)
    (tSet tGet : ℕ) :
    (tGet - tSet ≤ c.maxAge →
      ((c.set key v tSet).get key tGet).1 = some v) ∧
    (tGet - tSet > c.maxAge →
      ((c.set key v tSet).get key tGet).1 = none ∧
      lookupKey ((c.set key v tSet).get key tGet).2.cache key = none) := by
  have hl : lookupKey (setKey c.cache key ⟨v, tSet⟩) key = some ⟨v, tSet⟩ :=
    lookupKey_setKey c.cache key ⟨v, tSet⟩
  constructor
  · intro h
    unfold APICache.get APICache.set
    simp only [hl]
    rw [if_neg (by omega : ¬ tGet - tSet > c.maxAge)]
  · intro h
    unfold APICache.get APICache.set
    simp only [hl]
    rw [if_pos (h : tGet - tSet > c.maxAge)]
    exact ⟨rfl, lookupKey_eraseKey _ key⟩

/-- C7 witness: with `maxAge` 100, a read at elapsed time 50 returns
the stored value and a read at elapsed time 101 returns `null`. -/
theorem cache_roundtrip_expiry_witness :
    ((({ cache := [], maxAge := 100 } : APICache).set "k" (Json.str "img") 0).get
        "k" 50).1 = some (Json.str "img") ∧
    ((({ cache := [], maxAge := 100 } : APICache).set "k" (Json.str "img") 0).get
        "k" 101).1 = none :=
  ⟨(cache_roundtrip_expiry { cache := [], maxAge := 100 } "k" (Json.str "img")
      0 50).1 (by decide),
   ((cache_roundtrip_expiry { cache := [], maxAge := 100 } "k" (Json.str "img")
      0 101).2 (by decide)).1⟩

/-- C8: `set` on an existing key overwrites the entry and refreshes
its timestamp, so a read within `maxAge` of the second `set` returns
the second value regardless of when the first `set` happened. -/
theorem cache_set_overwrites (c : APICache) (key : String) (v1 v2 : Json)
    (t1 t2 t3 : ℕ) (h : t3 - t2 ≤ c.maxAge) :
    (((c.set key v1 t1).set key v2 t2).get key t3).1 = some v2 := by
  have hl : lookupKey (setKey (setKey c.cache key ⟨v1, t1⟩) key ⟨v2, t2⟩) key =
      some ⟨v2, t2⟩ :=
    lookupKey_setKey _ key ⟨v2, t2⟩
  unfold APICache.get APICache.set
  simp only [hl]
  rw [if_neg (by omega : ¬ t3 - t2 > c.maxAge)]

/-- C8 witness: with `maxAge` 100, the first store at time 0 is long
expired at the read time 550, yet the value stored at time 500
is returned. -/
theorem cache_set_overwrites_witness :
    (((({ cache := [], maxAge := 100 } : APICache).set "k" (Json.str "a") 0).set
        "k" (Json.str "b") 500).get "k" 550).1 = some (Json.str "b") :=
  cache_set_overwrites { cache := [], maxAge := 100 } "k" (Json.str "a")
    (Json.str "b") 0 500 550 (by decide)

end Astro
